import Mathlib

/-!
Verification of `pie_chart.py` (StockVisualizer): a shallow embedding of the
script's data pipeline — CSV loading and validation, explode-offset and color
computation for the pie chart, statistics reporting, chart saving, and the
entry point's exit codes.  File I/O, pandas parsing and matplotlib rendering
are external collaborators: they are modelled by their observable outcomes
(did the path exist, what rows did parsing yield, did the write succeed), and
every function of the script itself is translated faithfully from the source.
-/

namespace PieChart

/-- The fixed ten-color palette, constant `COLORS` of `pie_chart.py`. -/
def COLORS : List String :=
  ["#FF6B6B", "#4ECDC4", "#45B7D1", "#96CEB4", "#FFEAA7",
   "#DDA0DD", "#98D8C8", "#F7DC6F", "#BB8FCE", "#85C1E9"]

/-- Constant `EXPLODE_THRESHOLD = 30`. -/
def EXPLODE_THRESHOLD : Int := 30

/-- Default filename argument of `save_chart`. -/
def DEFAULT_CHART_FILENAME : String := "stock_chart.png"

/-- One row of the file as written, restricted to the two required columns
(`usecols`): either cell may be empty. -/
structure RawRow where
  product : Option String
  stock : Option Int
deriving Repr, DecidableEq

/-- One row as it comes out of a *successful* `pd.read_csv` call with
`dtype={'Product': 'string', 'Stock': 'int32'}`: Product is a nullable
string column, so an empty Product cell survives parsing as NA (`none`),
but Stock is a non-nullable `int32` column — a file with an empty Stock
cell never parses, so a parsed row always carries a Stock value. -/
structure CsvRow where
  product : Option String
  stock : Int
deriving Repr, DecidableEq

/-- One row of the in-memory dataframe after loading.  `label` is the pandas
index label — the row's position in the parsed file — kept separately from the
row's position in the dataframe because `dropna(inplace=True)` removes rows
without resetting the index. -/
structure Record where
  label : Nat
  product : String
  stock : Int
deriving Repr, DecidableEq

/-- The dataframe `self.df` as an ordered sequence of records. -/
abbrev Dataset := List Record

/-- Outcome of the `pd.read_csv` call: `failure` covers every exception the
`except` clause of `load_data` catches — `EmptyDataError` (empty file),
`ParserError` (malformed table) and `ValueError` (raised when `usecols`
names a column the file lacks, and also when the non-nullable `int32`
Stock column meets an empty cell). -/
inductive ParseResult where
  | failure (msg : String)
  | success (rows : List CsvRow)
deriving Repr, DecidableEq

/-- Row-wise part of `pd.read_csv` under `dtype={'Stock': 'int32'}`: `none`
as soon as any Stock cell is empty (an integer column cannot hold NA). -/
def read_csv_rows : List RawRow → Option (List CsvRow)
  | [] => some []
  | r :: rs =>
    match r.stock, read_csv_rows rs with
    | some s, some rest => some (⟨r.product, s⟩ :: rest)
    | _, _ => none

/-- `pd.read_csv` on a readable, well-formed file with both required columns:
parsing succeeds iff every Stock cell holds a value (a missing Stock raises
`ValueError`, which `load_data` catches); an empty Product cell survives as
NA in the nullable string column. -/
def read_csv (raw : List RawRow) : ParseResult :=
  match read_csv_rows raw with
  | some rows => ParseResult.success rows
  | none => ParseResult.failure "Integer column has NA values in column Stock"

/-- The external input `load_data` reacts to: whether `self.csv_path.exists()`
holds, and what parsing the file would yield if attempted. -/
structure CsvInput where
  path_exists : Bool
  parse : ParseResult
deriving Repr, DecidableEq

/-- `self.df.dropna(inplace=True)`: rows with a missing value are removed;
in a parsed frame only the Product column can hold NA, so exactly the rows
without a Product are dropped.  Surviving rows keep their original index
labels. -/
def dropna (rows : List CsvRow) : Dataset :=
  rows.enum.filterMap fun p =>
    match p.2.product with
    | some prod => some ⟨p.1, prod, p.2.stock⟩
    | none => none

/-- `StockVisualizer.load_data`: returns the dataframe state (`self.df` after
the call, starting from `None`) together with the boolean result.  The
explicit column check on the parsed frame (`REQUIRED_COLUMNS.issubset`) always
passes when `read_csv` succeeded under `usecols`, so it adds no branch. -/
def load_data (input : CsvInput) : Option Dataset × Bool :=
  if input.path_exists = false then (none, false)
  else
    match input.parse with
    | ParseResult.failure _ => (none, false)
    | ParseResult.success rows =>
      let df := dropna rows
      if df.isEmpty then (some df, false) else (some df, true)

/-- `StockVisualizer._calculate_explode`:
`np.where(stock_values < EXPLODE_THRESHOLD, 0.05, 0)`. -/
def calculate_explode (stock_values : List Int) : List ℚ :=
  stock_values.map fun s => if s < EXPLODE_THRESHOLD then (0.05 : ℚ) else 0

/-- The cycled color list `COLORS * ((total_products // len(COLORS)) + 1)`
built inside `create_visualization`. -/
def colors_cycle (total_products : Nat) : List String :=
  (List.replicate (total_products / COLORS.length + 1) COLORS).flatten

/-- The observable content of the matplotlib figure that
`create_visualization` builds. -/
structure Figure where
  labels : List String
  values : List Int
  explode : List ℚ
  colors : List String
  legend : List String
  title : String
  startangle : Nat
deriving Repr, DecidableEq

/-- `StockVisualizer.create_visualization`: `None` when no dataframe is
loaded, otherwise the pie-chart figure. -/
def create_visualization (df : Option Dataset) : Option Figure :=
  match df with
  | none => none
  | some ds =>
    let products := ds.map Record.product
    let stock_values := ds.map Record.stock
    let explode_values := calculate_explode stock_values
    let total_products := products.length
    some { labels := products,
           values := stock_values,
           explode := explode_values,
           colors := (colors_cycle total_products).take total_products,
           legend := (products.zip stock_values).map fun q => q.1 ++ ": " ++ toString q.2,
           title := "Product Stock Distribution",
           startangle := 90 }

/-- `Series.idxmax` on the Stock column: the record whose stock is maximal,
first occurrence winning ties (pandas returns the first maximal label).
`none` on an empty series, where pandas raises. -/
def argmaxRecord (ds : Dataset) : Option Record :=
  ds.foldl (fun acc r =>
    match acc with
    | none => some r
    | some b => if b.stock < r.stock then some r else some b) none

/-- `Series.idxmin` on the Stock column, first occurrence winning ties. -/
def argminRecord (ds : Dataset) : Option Record :=
  ds.foldl (fun acc r =>
    match acc with
    | none => some r
    | some b => if r.stock < b.stock then some r else some b) none

/-- `stock_values.idxmax()`: the index label of the first maximal record. -/
def idxmax (ds : Dataset) : Option Nat :=
  (argmaxRecord ds).map Record.label

/-- `stock_values.idxmin()`: the index label of the first minimal record. -/
def idxmin (ds : Dataset) : Option Nat :=
  (argminRecord ds).map Record.label

/-- `.iloc[i]`: purely positional lookup into the dataframe; `none` where
pandas raises `IndexError`. -/
def iloc (ds : Dataset) (i : Nat) : Option Record :=
  ds.get? i

/-- `stock_values.sum()`. -/
def sum_stocks (ds : Dataset) : Int :=
  (ds.map Record.stock).sum

/-- `stock_values.mean()` as an exact rational (the float computation is
exact at the datasets considered here). -/
def mean_stock (ds : Dataset) : ℚ :=
  (sum_stocks ds : ℚ) / (ds.length : ℚ)

/-- The value printed by `f"{avg_stock:.1f}"`, in tenths of a unit: rounding
to the nearest tenth (Python's float formatting agrees with exact rational
rounding away from ties). -/
def tenths (q : ℚ) : Int :=
  round (10 * q)

/-- The figures `print_statistics` prints for a loaded dataframe. -/
structure StatsReport where
  total_stock : Int
  products_count : Nat
  avg_tenths : Int
  highest : String × Int
  lowest : String × Int
deriving Repr, DecidableEq

/-- `StockVisualizer.print_statistics` on a loaded dataframe: the report it
prints, or `none` when an exception escapes the method (an empty series, or
`iloc[max_idx]` / `iloc[min_idx]` out of bounds — the method indexes
positionally with `idxmax`/`idxmin` labels). -/
def print_statistics (ds : Dataset) : Option StatsReport :=
  match idxmax ds, idxmin ds with
  | some max_idx, some min_idx =>
    match iloc ds max_idx, iloc ds min_idx with
    | some hi, some lo =>
      some { total_stock := sum_stocks ds,
             products_count := ds.length,
             avg_tenths := tenths (mean_stock ds),
             highest := (hi.product, hi.stock),
             lowest := (lo.product, lo.stock) }
    | _, _ => none
  | _, _ => none

/-- Outcome of the `fig.savefig` call inside `save_chart`. -/
inductive SaveOutcome where
  | ok
  | ioError (msg : String)
deriving Repr, DecidableEq

/-- `StockVisualizer.save_chart`: the boolean result and the console line it
prints.  Totality of this function models the try/except boundary: every
outcome is turned into a report and a Bool, nothing propagates. -/
def save_chart (outcome : SaveOutcome) (filename : String) : Bool × String :=
  match outcome with
  | SaveOutcome.ok => (true, "Chart saved: " ++ filename)
  | SaveOutcome.ioError e => (false, "Save error: " ++ e)

/-- What the blocking `input("\nSave chart? (y/N): ")` call does: the user
answers, interrupts (KeyboardInterrupt), or some other exception occurs. -/
inductive PromptResult where
  | answer (s : String)
  | interrupt
  | exn (msg : String)
deriving Repr, DecidableEq

/-- The environment of one run of `main`: the CSV input, what happens at the
save prompt, and how a save attempt would go. -/
structure Env where
  file : CsvInput
  prompt : PromptResult
  save : SaveOutcome
deriving Repr, DecidableEq

/-- `main`: the process exit status of a run in environment `env`.  A `none`
from `print_statistics` is an exception reaching the top-level handler
(`except Exception`), hence exit 1; an interrupt or exception at the prompt
likewise exits 1; the result of an attempted save does not change the exit
status. -/
def main (env : Env) : Int :=
  let r := load_data env.file
  if r.2 = false then 1
  else
    match create_visualization r.1 with
    | none => 1
    | some _fig =>
      match r.1 with
      | none => 1
      | some ds =>
        match print_statistics ds with
        | none => 1
        | some _stats =>
          match env.prompt with
          | PromptResult.interrupt => 1
          | PromptResult.exn _ => 1
          | PromptResult.answer s =>
            if s.toLower = "y" then
              let _ := save_chart env.save DEFAULT_CHART_FILENAME
              0
            else 0

/-- The spec's statistics example: a parsed CSV whose rows carry stocks
10, 20, 5. -/
def rows_c6 : List CsvRow :=
  [⟨some "A", 10⟩, ⟨some "B", 20⟩, ⟨some "C", 5⟩]

/-- A parsed CSV with one invalid row (missing Product) before the
maximum-stock row: after `dropna` the index labels are 0, 2, 3, 4 while the
positions are 0, 1, 2, 3. -/
def rows_c1 : List CsvRow :=
  [⟨some "Apple", 5⟩, ⟨none, 7⟩, ⟨some "Cherry", 100⟩,
   ⟨some "Date", 1⟩, ⟨some "Egg", 50⟩]

/-- A well-formed file with one valid row and one row whose Stock cell is
empty. -/
def raw_c4 : List RawRow :=
  [⟨some "A", some 1⟩, ⟨some "B", none⟩]

/-- A well-formed file whose Stock cells are all present and whose second
row lacks a Product. -/
def raw_w : List RawRow :=
  [⟨some "A", some 10⟩, ⟨none, some 7⟩, ⟨some "B", some 20⟩]

/-- `raw_w` as `read_csv` parses it. -/
def rows_w : List CsvRow :=
  [⟨some "A", 10⟩, ⟨none, 7⟩, ⟨some "B", 20⟩]

/-- A 23-record dataset, for the spec's color-cycling example. -/
def ds23 : Dataset :=
  (List.range 23).map fun i => { label := i, product := "P", stock := (i : Int) }

/-- Element `i` of `k` copies of `l` laid end to end is element `i % l.length`
of `l`. -/
theorem get?_flatten_replicate {α : Type} (l : List α) :
    ∀ (k i : Nat), i < k * l.length →
      ((List.replicate k l).flatten).get? i = l.get? (i % l.length) := by
  intro k
  induction k with
  | zero => intro i h; omega
  | succ k ih =>
    intro i h
    rw [List.replicate_succ, List.flatten_cons]
    by_cases hlt : i < l.length
    · rw [List.get?_append hlt, Nat.mod_eq_of_lt hlt]
    · push_neg at hlt
      rw [List.get?_append_right hlt, ih (i - l.length) (by rw [Nat.succ_mul] at h; omega)]
      rw [Nat.mod_eq_sub_mod hlt]

/-- The cycled color list has length `(n / 10 + 1) * 10`. -/
theorem colors_cycle_length (n : Nat) :
    (colors_cycle n).length = (n / COLORS.length + 1) * COLORS.length := by
  simp [colors_cycle, List.length_flatten, List.map_replicate, List.sum_replicate,
    smul_eq_mul]

/-- Shared evaluation: `dropna` keeps exactly the rows with a Product. -/
theorem dropna_length (rows : List CsvRow) :
    (dropna rows).length = (rows.filter fun r => r.product.isSome).length := by
  have aux : ∀ (l : List CsvRow) (n : Nat),
      ((List.enumFrom n l).filterMap fun p =>
        match p.2.product with
        | some prod => some (⟨p.1, prod, p.2.stock⟩ : Record)
        | none => none).length
      = (l.filter fun r => r.product.isSome).length := by
    intro l
    induction l with
    | nil => intro n; rfl
    | cons r rs ih =>
      intro n
      cases hp : r.product <;>
        simp [List.enumFrom, List.filterMap_cons, List.filter_cons, hp, ih]
  exact aux rows 0

/-- Parsing fails as soon as one Stock cell is empty. -/
theorem read_csv_rows_none (raw : List RawRow) :
    (∃ r ∈ raw, r.stock = none) → read_csv_rows raw = none := by
  induction raw with
  | nil => intro h; simp at h
  | cons r rs ih =>
    intro h
    rcases h with ⟨x, hx, hnone⟩
    rw [List.mem_cons] at hx
    rcases hx with hx | hx
    · subst hx
      rw [read_csv_rows, hnone]
    · rw [read_csv_rows, ih ⟨x, hx, hnone⟩]
      cases r.stock <;> rfl

/-- Parsing succeeds when every Stock cell holds a value. -/
theorem read_csv_rows_total (raw : List RawRow) :
    (∀ r ∈ raw, r.stock.isSome = true) → ∃ rows, read_csv_rows raw = some rows := by
  induction raw with
  | nil => intro h; exact ⟨[], rfl⟩
  | cons r rs ih =>
    intro h
    obtain ⟨rest, hrest⟩ := ih fun x hx => h x (List.mem_cons_of_mem r hx)
    have hr : r.stock.isSome = true := h r (List.mem_cons_self r rs)
    obtain ⟨s, hs⟩ := Option.isSome_iff_exists.mp hr
    exact ⟨⟨r.product, s⟩ :: rest, by rw [read_csv_rows, hs, hrest]⟩

/-- A successfully parsed frame has one Product-bearing row per file row with
both fields present. -/
theorem read_csv_rows_filter (raw : List RawRow) :
    ∀ rows, read_csv_rows raw = some rows →
      (rows.filter fun c => c.product.isSome).length
        = (raw.filter fun r => r.product.isSome && r.stock.isSome).length := by
  induction raw with
  | nil =>
    intro rows h
    rw [read_csv_rows, Option.some.injEq] at h
    rw [← h]
    rfl
  | cons r rs ih =>
    intro rows h
    rw [read_csv_rows] at h
    cases hs : r.stock with
    | none => rw [hs] at h; cases h2 : read_csv_rows rs <;> rw [h2] at h <;> exact absurd h (by simp)
    | some s =>
      rw [hs] at h
      cases h2 : read_csv_rows rs with
      | none => rw [h2] at h; exact absurd h (by simp)
      | some rest =>
        rw [h2, Option.some.injEq] at h
        rw [← h]
        cases hp : r.product <;>
          simp [List.filter_cons, hp, hs, ih rest h2]

/-- C2: for every record of the dataset, the explode offset computed for
rendering is 0.05 when the record's Stock is strictly below the threshold 30
and 0 when Stock is at least 30; at the boundary, Stock = 29 yields 0.05 and
Stock = 30 yields 0 (and the two offsets differ). -/
theorem c2_explode_offset :
    (∀ (ds : Dataset) (i : Nat) (r : Record), ds.get? i = some r →
        (create_visualization (some ds)).bind (fun f => f.explode.get? i)
          = some (if r.stock < EXPLODE_THRESHOLD then (0.05 : ℚ) else 0))
    ∧ calculate_explode [29, 30] = [0.05, 0]
    ∧ (0.05 : ℚ) ≠ 0 := by
  refine ⟨?_, ?_, by norm_num⟩
  · intro ds i r hr
    rw [List.get?_eq_getElem?] at hr
    simp [create_visualization, calculate_explode, List.get?_map, hr]
  · norm_num [calculate_explode, EXPLODE_THRESHOLD]

/-- C3: `create_visualization` assigns the `i`-th record (0-based) the palette
color `i % 10`: color assignment cycles the fixed ten-color palette in
dataset order. -/
theorem c3_color_cycling (ds : Dataset) (i : Nat) (hi : i < ds.length) :
    (create_visualization (some ds)).bind (fun f => f.colors.get? i)
      = COLORS.get? (i % COLORS.length) := by
  have hCL : COLORS.length = 10 := rfl
  have hbound : i < (ds.length / COLORS.length + 1) * COLORS.length := by
    rw [hCL]; omega
  simp only [create_visualization, Option.bind]
  rw [List.length_map, List.get?_take hi, colors_cycle,
    get?_flatten_replicate COLORS (ds.length / COLORS.length + 1) i hbound]

/-- C3's concrete instance: in a 23-record dataset the 1st, 11th and 21st
records (indices 0, 10, 20) all receive the first palette color. -/
theorem c3_color_cycling_witness :
    (create_visualization (some ds23)).bind (fun f => f.colors.get? 0) = COLORS.get? 0
    ∧ (create_visualization (some ds23)).bind (fun f => f.colors.get? 10) = COLORS.get? 0
    ∧ (create_visualization (some ds23)).bind (fun f => f.colors.get? 20) = COLORS.get? 0 :=
  ⟨c3_color_cycling ds23 0 (by decide),
   c3_color_cycling ds23 10 (by decide),
   c3_color_cycling ds23 20 (by decide)⟩

/-- C10: for every record count `n`, the cycled color list (the palette
repeated `n / 10 + 1` times) has length at least `n`, its first-`n` prefix has
exactly one color per record, and every lookup of one of the `n` wedge colors
is in bounds. -/
theorem c10_color_lookup_in_bounds (n : Nat) :
    n ≤ (colors_cycle n).length
    ∧ ((colors_cycle n).take n).length = n
    ∧ ∀ i, i < n → (((colors_cycle n).take n).get? i).isSome = true := by
  have hCL : COLORS.length = 10 := rfl
  have hlen : (colors_cycle n).length = (n / COLORS.length + 1) * COLORS.length :=
    colors_cycle_length n
  have hle : n ≤ (colors_cycle n).length := by rw [hlen, hCL]; omega
  have htake : ((colors_cycle n).take n).length = n := by
    rw [List.length_take]; omega
  refine ⟨hle, htake, ?_⟩
  intro i hi
  cases h : ((colors_cycle n).take n).get? i with
  | none => rw [List.get?_eq_none] at h; omega
  | some c => rfl

/-- C4 (counterexample): in the file `raw_c4` the first row has both fields
present, so the claim predicts a successful load with one record; but the
second row's empty Stock cell makes `read_csv` raise `ValueError` under the
`int32` dtype, so `load_data` fails outright — the row is not merely
excluded. -/
theorem c4_missing_stock_counterexample :
    (raw_c4.filter fun r => r.product.isSome && r.stock.isSome).length = 1
    ∧ read_csv raw_c4
        = ParseResult.failure "Integer column has NA values in column Stock"
    ∧ load_data ⟨true, read_csv raw_c4⟩ = (none, false) := by
  refine ⟨by decide, by decide, by decide⟩

/-- C4 (amended): any row with an empty Stock cell fails the whole load
(parsing raises, caught as `false`); when every Stock cell is present, every
row missing the Product value is excluded, the load succeeds exactly when at
least one row has both fields present, and the loaded dataset's length equals
the number of rows with both fields present. -/
theorem c4_dropna_load (raw : List RawRow) :
    ((∃ r ∈ raw, r.stock = none) → load_data ⟨true, read_csv raw⟩ = (none, false))
    ∧ ((∀ r ∈ raw, r.stock.isSome = true) →
        ((load_data ⟨true, read_csv raw⟩).2 = true
            ↔ 0 < (raw.filter fun r => r.product.isSome && r.stock.isSome).length)
        ∧ ∀ ds, (load_data ⟨true, read_csv raw⟩).1 = some ds →
            ds.length = (raw.filter fun r => r.product.isSome && r.stock.isSome).length) := by
  constructor
  · intro h
    have hfail : read_csv raw
        = ParseResult.failure "Integer column has NA values in column Stock" := by
      rw [read_csv, read_csv_rows_none raw h]
    rw [hfail]
    rfl
  · intro h
    obtain ⟨rows, hrows⟩ := read_csv_rows_total raw h
    have hparse : read_csv raw = ParseResult.success rows := by
      rw [read_csv, hrows]
    have hfl := read_csv_rows_filter raw rows hrows
    have hlen := dropna_length rows
    have h1 : (load_data ⟨true, ParseResult.success rows⟩).1 = some (dropna rows) := by
      by_cases hemp : (dropna rows).isEmpty <;> simp [load_data, hemp]
    rw [hparse]
    constructor
    · by_cases hemp : (dropna rows).isEmpty
      · have h2 : (load_data ⟨true, ParseResult.success rows⟩).2 = false := by
          simp [load_data, hemp]
        have h0 : (dropna rows).length = 0 := by
          rw [List.isEmpty_iff] at hemp; rw [hemp]; rfl
        rw [h2]
        constructor
        · intro hc; exact absurd hc (by simp)
        · intro hc; exfalso; omega
      · have h2 : (load_data ⟨true, ParseResult.success rows⟩).2 = true := by
          simp [load_data, hemp]
        have h0 : (dropna rows).length ≠ 0 := by
          intro hz
          rw [List.isEmpty_iff] at hemp
          exact hemp (List.length_eq_zero.mp hz)
        rw [h2]
        constructor
        · intro _; omega
        · intro _; rfl
    · intro ds hds
      rw [h1, Option.some.injEq] at hds
      rw [← hds, hlen, hfl]

/-- C4's concrete success instance: in the file `raw_w` every Stock cell is
present and the middle row lacks a Product; the load succeeds, that row is
excluded, and the dataset has exactly the two fully-present rows. -/
theorem c4_dropna_load_witness :
    (load_data ⟨true, read_csv raw_w⟩).2 = true
    ∧ (load_data ⟨true, read_csv raw_w⟩).1 = some (dropna rows_w)
    ∧ (dropna rows_w).length
        = (raw_w.filter fun r => r.product.isSome && r.stock.isSome).length :=
  ⟨((c4_dropna_load raw_w).2 (by decide)).1.mpr (by decide),
   by decide,
   ((c4_dropna_load raw_w).2 (by decide)).2 (dropna rows_w) (by decide)⟩

/-- C5: `load_data` fails by returning `false` (a total function of the
modelled outcomes, so no exception escapes) when the file does not exist and
when parsing fails (empty file, malformed table, a required column missing,
or an empty Stock cell under the `int32` dtype — all raised as the
exceptions its `except` clause catches); and on a
nonexistent path the result is `(none, false)` no matter what parsing would
have yielded, i.e. the file is never parsed. -/
theorem c5_load_failure_paths :
    (∀ p : ParseResult, load_data ⟨false, p⟩ = (none, false))
    ∧ (∀ (b : Bool) (msg : String), (load_data ⟨b, ParseResult.failure msg⟩).2 = false)
    ∧ (∀ p q : ParseResult, load_data ⟨false, p⟩ = load_data ⟨false, q⟩) :=
  ⟨fun _ => rfl, fun b _ => by cases b <;> rfl, fun _ _ => rfl⟩

/-- C6: on the dataset with stocks `[10, 20, 5]`, `print_statistics` reports
total 35, average 11.7 (117 tenths), highest record `("B", 20)` and lowest
record `("C", 5)`. -/
theorem c6_statistics_example :
    print_statistics (dropna rows_c6)
      = some { total_stock := 35, products_count := 3, avg_tenths := 117,
               highest := ("B", 20), lowest := ("C", 5) } := by
  have hsum : sum_stocks (dropna rows_c6) = 35 := by decide
  have hlen : (dropna rows_c6).length = 3 := by decide
  have hmean : mean_stock (dropna rows_c6) = 35 / 3 := by
    rw [mean_stock, hsum, hlen]; norm_num
  have htenths : tenths (mean_stock (dropna rows_c6)) = 117 := by
    rw [tenths, hmean, round_eq]
    norm_num [Int.floor_eq_iff]
  have hmax : idxmax (dropna rows_c6) = some 1 := by decide
  have hmin : idxmin (dropna rows_c6) = some 2 := by decide
  have hhi : iloc (dropna rows_c6) 1 = some ⟨1, "B", 20⟩ := by decide
  have hlo : iloc (dropna rows_c6) 2 = some ⟨2, "C", 5⟩ := by decide
  simp [print_statistics, hmax, hmin, hhi, hlo, hsum, hlen, htenths]

/-- C1 (failing input): on the CSV `rows_c1`, whose second row is dropped for
a missing Product, the loaded dataset's first (and only) maximum-stock record
is `("Cherry", 100)` at index label 2, yet `print_statistics` reports
`("Date", 1)` as the highest record: `idxmax` returns the pandas index label 2
but `.iloc[2]` indexes by position in the post-`dropna` frame.  On another
drop pattern the positional lookup is out of bounds entirely and the method
raises (modelled as `none`). -/
theorem c1_idxmax_iloc_mismatch :
    (load_data ⟨true, ParseResult.success rows_c1⟩).1 = some (dropna rows_c1)
    ∧ argmaxRecord (dropna rows_c1) = some ⟨2, "Cherry", 100⟩
    ∧ argminRecord (dropna rows_c1) = some ⟨3, "Date", 1⟩
    ∧ (print_statistics (dropna rows_c1)).map StatsReport.highest = some ("Date", 1)
    ∧ (print_statistics (dropna rows_c1)).map StatsReport.lowest = some ("Egg", 50)
    ∧ print_statistics (dropna [⟨none, 50⟩, ⟨some "B", 10⟩]) = none := by
  have hmax : idxmax (dropna rows_c1) = some 2 := by decide
  have hmin : idxmin (dropna rows_c1) = some 3 := by decide
  have hhi : iloc (dropna rows_c1) 2 = some ⟨3, "Date", 1⟩ := by decide
  have hlo : iloc (dropna rows_c1) 3 = some ⟨4, "Egg", 50⟩ := by decide
  refine ⟨by decide, by decide, by decide, ?_, ?_, by decide⟩ <;>
    simp [print_statistics, hmax, hmin, hhi, hlo]

/-- C7: with no dataframe loaded `create_visualization` returns `None` (and,
being a total function of the modelled state, raises nothing); with a loaded
dataframe it returns a figure. -/
theorem c7_create_visualization_guard :
    create_visualization none = none
    ∧ ∀ ds : Dataset, (create_visualization (some ds)).isSome = true :=
  ⟨rfl, fun _ => rfl⟩

/-- C8: `save_chart` is a total function of the write outcome — every outcome
becomes a boolean and a console line, nothing propagates: a successful write
reports the exact filename used and returns `true`; a failed write reports the
underlying error message and returns `false`. -/
theorem c8_save_chart_boundary (filename : String) :
    save_chart SaveOutcome.ok filename = (true, "Chart saved: " ++ filename)
    ∧ ∀ e, save_chart (SaveOutcome.ioError e) filename = (false, "Save error: " ++ e) :=
  ⟨rfl, fun _ => rfl⟩

/-- C9: `main` exits 0 or 1; it exits 0 exactly when the whole pipeline
succeeds — the load returned true, the figure was created and the statistics
printed without an exception, and the user answered the prompt rather than
interrupting or hitting an unexpected error — and 1 in every other case
(load failure, render failure, cancellation, unexpected error). -/
theorem c9_main_exit_codes (env : Env) :
    (main env = 0 ∨ main env = 1)
    ∧ (main env = 0 ↔
        ((load_data env.file).2 = true
          ∧ (∃ ds, (load_data env.file).1 = some ds ∧ (print_statistics ds).isSome = true)
          ∧ ∃ s, env.prompt = PromptResult.answer s)) := by
  obtain ⟨⟨pe, parse⟩, prompt, sv⟩ := env
  cases pe with
  | false => simp [main, load_data]
  | true =>
    cases parse with
    | failure msg => simp [main, load_data]
    | success rows =>
      by_cases hemp : (dropna rows).isEmpty
      · simp [main, load_data, hemp]
      · cases hps : print_statistics (dropna rows) with
        | none => simp [main, load_data, hemp, create_visualization, hps]
        | some st =>
          cases prompt with
          | answer s =>
            by_cases hy : s.toLower = "y" <;>
              simp [main, load_data, hemp, create_visualization, hps, hy]
          | interrupt => simp [main, load_data, hemp, create_visualization, hps]
          | exn m => simp [main, load_data, hemp, create_visualization, hps]

end PieChart
